import Mathlib

/-!
Verification of the force-directed canvas graph engine (`CanvasGraph`) of the
relnet repository.  The component keeps per-node kinematic state in a record
keyed by node id, runs a force simulation once per animation frame, and lets
the user drag nodes, pan and zoom.  JavaScript numbers are modelled as `ℚ`;
`Math.sqrt` (whose value is irrational in general) is modelled as an explicit
function parameter `sq : ℚ → ℚ` threaded through every definition that calls
it, so every theorem quantifies over the square-root routine and every
definition stays executable.
-/

namespace CanvasGraph

abbrev NodeId := String

/-- Per-node kinematic state, one entry of the `nodePositions` record:
`{ x, y, vx, vy }`. -/
structure PhysState where
  x : ℚ
  y : ℚ
  vx : ℚ
  vy : ℚ
  deriving DecidableEq, Repr

/-- `NodeData` as in the component props. -/
structure NodeData where
  id : NodeId
  firstName : String
  lastName : String
  connectionCount : ℤ
  bgColor : String
  x : ℚ
  y : ℚ
  deriving DecidableEq, Repr

/-- `EdgeData` as in the component props. -/
structure EdgeData where
  id : String
  source : NodeId
  target : NodeId
  color : String
  width : ℚ
  deriving DecidableEq, Repr

/-- The `nodePositions` record: a partial map from node id to kinematic state. -/
abbrev PosMap := NodeId → Option PhysState

-- Physics constants from the source (0.1 = 1/10 etc. written exactly as ℚ).
def NODE_RADIUS : ℚ := 45
def MIN_DISTANCE : ℚ := 110
def MAX_DISTANCE : ℚ := 500
def REPULSION_STRENGTH : ℚ := 500
def ATTRACTION_STRENGTH : ℚ := 1/10
def CONSTRAINT_STRENGTH : ℚ := 1/5
def DAMPING : ℚ := 3/5
def CENTER_GRAVITY : ℚ := 1/100
def MAX_VELOCITY : ℚ := 5
def COOLING_FACTOR : ℚ := 99/100

/-- The React state of the component that the event handlers read and write:
drag/hover/pan/zoom state plus the node-position record. -/
structure GState where
  draggedNode : Option NodeId
  hoveredNode : Option NodeId
  offsetX : ℚ
  offsetY : ℚ
  isPanning : Bool
  panOffset : ℚ × ℚ
  panStart : ℚ × ℚ
  scale : ℚ
  autoLayout : Bool
  nodePositions : PosMap

/-- Screen-to-world transform used throughout the source
(`transformedX = (x - panOffset.x) / scale`, same for y). -/
def screenToWorld (p : ℚ × ℚ) (panOff : ℚ × ℚ) (scale : ℚ) : ℚ × ℚ :=
  ((p.1 - panOff.1) / scale, (p.2 - panOff.2) / scale)

/-- `handleWheel` from the source: multiplicative zoom (×1.1 in, ×0.9 out),
clamped to [0.1, 5], with the pan offset recomputed so the point under the
mouse stays fixed. -/
def handleWheel (mouseX mouseY deltaY : ℚ) (st : GState) : GState :=
  let scaleFactor : ℚ := if deltaY < 0 then 11/10 else 9/10
  let newScale := max (1/10) (min 5 (st.scale * scaleFactor))
  let newPanOffsetX := mouseX - (mouseX - st.panOffset.1) * (newScale / st.scale)
  let newPanOffsetY := mouseY - (mouseY - st.panOffset.2) * (newScale / st.scale)
  { st with scale := newScale, panOffset := (newPanOffsetX, newPanOffsetY) }

/-- A concrete instantiation used by several theorems: a single node `"a"`. -/
def nodeA : NodeData :=
  { id := "a", firstName := "Ann", lastName := "Lee", connectionCount := 0,
    bgColor := "", x := 0, y := 0 }

/-- Initial interaction state: node `"a"` at (400, 300), identity viewport. -/
def st0 : GState :=
  { draggedNode := none, hoveredNode := none, offsetX := 0, offsetY := 0,
    isPanning := false, panOffset := (0, 0), panStart := (0, 0), scale := 1,
    autoLayout := true,
    nodePositions := fun id => if id = "a" then some ⟨400, 300, 0, 0⟩ else none }

/-- `findNodeAtPosition` from the source: convert the pointer to world space,
then scan the node list in reverse order (top-most first) for the first node
whose recorded position is within `NODE_RADIUS` of the pointer.  `sq` models
`Math.sqrt`. -/
def findNodeAtPosition (sq : ℚ → ℚ) (nodes : List NodeData) (pos : PosMap)
    (panOff : ℚ × ℚ) (scale : ℚ) (x y : ℚ) : Option NodeId :=
  let tX := (x - panOff.1) / scale
  let tY := (y - panOff.2) / scale
  (nodes.reverse.find? fun n =>
    match pos n.id with
    | none => false
    | some p =>
      decide (sq ((p.x - tX) * (p.x - tX) + (p.y - tY) * (p.y - tY)) ≤ NODE_RADIUS)).map
    (fun n => n.id)

/-- `handleMouseDown` from the source: hit → enter drag (record grab offset,
zero the node's velocity); miss → start panning.  The inner `none` branch is
unreachable because `findNodeAtPosition` only returns ids present in the
position record. -/
def handleMouseDown (sq : ℚ → ℚ) (nodes : List NodeData) (x y : ℚ) (st : GState) : GState :=
  match findNodeAtPosition sq nodes st.nodePositions st.panOffset st.scale x y with
  | some nodeId =>
    match st.nodePositions nodeId with
    | some p =>
      let tX := (x - st.panOffset.1) / st.scale
      let tY := (y - st.panOffset.2) / st.scale
      { st with
        draggedNode := some nodeId
        offsetX := tX - p.x
        offsetY := tY - p.y
        nodePositions := fun id =>
          if id = nodeId then some { p with vx := 0, vy := 0 } else st.nodePositions id }
    | none => st
  | none => { st with isPanning := true, panStart := (x, y) }

/-- `handleMouseMove` from the source: always recompute the hovered node; if
dragging, set the dragged node's entry to `(pointerWorld − grabOffset, v = 0)`
(the source spreads `prev[draggedNode]` but overwrites all four fields); else
if panning, accumulate the screen-space delta into the pan offset. -/
def handleMouseMove (sq : ℚ → ℚ) (nodes : List NodeData) (x y : ℚ) (st : GState) : GState :=
  let hovered := findNodeAtPosition sq nodes st.nodePositions st.panOffset st.scale x y
  let st1 := { st with hoveredNode := hovered }
  match st1.draggedNode with
  | some d =>
    let tX := (x - st1.panOffset.1) / st1.scale
    let tY := (y - st1.panOffset.2) / st1.scale
    { st1 with nodePositions := fun id =>
        if id = d then some { x := tX - st1.offsetX, y := tY - st1.offsetY, vx := 0, vy := 0 }
        else st1.nodePositions id }
  | none =>
    if st1.isPanning then
      { st1 with
        panOffset := (st1.panOffset.1 + (x - st1.panStart.1),
                      st1.panOffset.2 + (y - st1.panStart.2))
        panStart := (x, y) }
    else st1

/-- A host-callback invocation performed by an event handler. -/
inductive HostCall where
  | nodeClick (id : NodeId)
  | nodeDrag (id : NodeId) (x y : ℚ)
  deriving DecidableEq, Repr

/-- `handleMouseUp` from the source.  Its entire body is
`setDraggedNode(null); setIsPanning(false)`; the second component records
every host callback the handler invokes, and it invokes none. -/
def handleMouseUp (st : GState) : GState × List HostCall :=
  ({ st with draggedNode := none, isPanning := false }, [])

/-- Square-root stub adequate for the concrete drag scenarios: exact at 0, and
some value above `NODE_RADIUS` for the (nonzero) squared distances that occur. -/
def sq0 : ℚ → ℚ := fun q => if q = 0 then 0 else 150

/-- State after pointerdown at (400, 300), the center of node `"a"`. -/
def stAfterDown : GState := handleMouseDown sq0 [nodeA] 400 300 st0

/-- State after the subsequent pointermove to (500, 400). -/
def stAfterMove : GState := handleMouseMove sq0 [nodeA] 500 400 stAfterDown

/-- A concrete dragging state for witnesses. -/
def stDrag : GState := { st0 with draggedNode := some "a" }

/-- Fold a list of wheel events `(mouseX, mouseY, deltaY)` through `handleWheel`. -/
def applyWheelList (evts : List (ℚ × ℚ × ℚ)) (st : GState) : GState :=
  evts.foldl (fun s e => handleWheel e.1 e.2.1 e.2.2 s) st

/-- The force accumulated for one node inside `simulatePhysics`: center
gravity, then pairwise repulsion from every other node closer than
`MIN_DISTANCE`, then attraction/constraint toward each connected node.
`acc` is the (sequentially updated) positions record being folded over;
`Math.sqrt(d) || 1` is modelled as `if sq d = 0 then 1 else sq d`. -/
def computeForce (sq : ℚ → ℚ) (w h : ℚ) (nodes : List NodeData)
    (edges : List EdgeData) (acc : PosMap) (n : NodeData) (st : PhysState) : ℚ × ℚ :=
  let f0 : ℚ × ℚ := ((w / 2 - st.x) * CENTER_GRAVITY, (h / 2 - st.y) * CENTER_GRAVITY)
  let f1 := nodes.foldl (fun f other =>
    if other.id = n.id then f else
    match acc other.id with
    | none => f
    | some op =>
      let dx := st.x - op.x
      let dy := st.y - op.y
      let d0 := sq (dx * dx + dy * dy)
      let distance := if d0 = 0 then 1 else d0
      if distance < MIN_DISTANCE then
        let repulsionFactor := 1 - distance / MIN_DISTANCE
        let repulsionForce := REPULSION_STRENGTH * repulsionFactor * repulsionFactor
        (f.1 + dx / distance * repulsionForce, f.2 + dy / distance * repulsionForce)
      else f) f0
  let connected := (edges.filterMap fun e =>
    if e.source = n.id then some e.target
    else if e.target = n.id then some e.source
    else none).dedup
  connected.foldl (fun f tid =>
    match acc tid with
    | none => f
    | some tp =>
      let dx := tp.x - st.x
      let dy := tp.y - st.y
      let d0 := sq (dx * dx + dy * dy)
      let distance := if d0 = 0 then 1 else d0
      if distance > MAX_DISTANCE then
        let constraintForce := CONSTRAINT_STRENGTH * (distance - MAX_DISTANCE)
        (f.1 + dx / distance * constraintForce, f.2 + dy / distance * constraintForce)
      else
        let attractionForce := ATTRACTION_STRENGTH * (distance / MAX_DISTANCE)
        (f.1 + dx / distance * attractionForce, f.2 + dy / distance * attractionForce)) f1

/-- The integration tail of `simulatePhysics`, exactly in source statement
order: damped velocity plus force, speed clamp, cooling, position update, then
the four sequential boundary `if`s (each bounce multiplies the velocity
component by −0.5). -/
def integrateNode (sq : ℚ → ℚ) (w h : ℚ) (st : PhysState) (f : ℚ × ℚ) : PhysState :=
  let vx0 := st.vx * DAMPING + f.1
  let vy0 := st.vy * DAMPING + f.2
  let speed := sq (vx0 * vx0 + vy0 * vy0)
  let v1 := if speed > MAX_VELOCITY then
      (vx0 / speed * MAX_VELOCITY, vy0 / speed * MAX_VELOCITY)
    else (vx0, vy0)
  let vx2 := v1.1 * COOLING_FACTOR
  let vy2 := v1.2 * COOLING_FACTOR
  let x0 := st.x + vx2
  let y0 := st.y + vy2
  let c1 := if x0 < NODE_RADIUS then (NODE_RADIUS, vx2 * (-(1/2))) else (x0, vx2)
  let c2 := if c1.1 > w - NODE_RADIUS then (w - NODE_RADIUS, c1.2 * (-(1/2))) else c1
  let c3 := if y0 < NODE_RADIUS then (NODE_RADIUS, vy2 * (-(1/2))) else (y0, vy2)
  let c4 := if c3.1 > h - NODE_RADIUS then (h - NODE_RADIUS, c3.2 * (-(1/2))) else c3
  { x := c2.1, y := c4.1, vx := c2.2, vy := c4.2 }

/-- One node's treatment inside the `simulatePhysics` loop body: skip if the
node has no entry or is the dragged node, else overwrite its entry with the
integrated state. -/
def updateNode (sq : ℚ → ℚ) (w h : ℚ) (nodes : List NodeData)
    (edges : List EdgeData) (dragged : Option NodeId) (acc : PosMap)
    (n : NodeData) : PosMap :=
  match acc n.id with
  | none => acc
  | some st =>
    if dragged = some n.id then acc
    else fun id =>
      if id = n.id then
        some (integrateNode sq w h st (computeForce sq w h nodes edges acc n st))
      else acc id

/-- One whole physics tick: the source's `forEach` mutates the copied record
in place, so later nodes see earlier nodes' updated entries — a left fold. -/
def simulatePhysics (sq : ℚ → ℚ) (w h : ℚ) (nodes : List NodeData)
    (edges : List EdgeData) (dragged : Option NodeId) (pos : PosMap) : PosMap :=
  nodes.foldl (updateNode sq w h nodes edges dragged) pos

/-- C5's wording, step 1: `velocity = velocity*DAMPING + force`. -/
def specDampedVelocity (st : PhysState) (f : ℚ × ℚ) : ℚ × ℚ :=
  (st.vx * DAMPING + f.1, st.vy * DAMPING + f.2)

/-- C5's wording, step 2: a velocity whose magnitude exceeds `MAX_VELOCITY`
is rescaled to magnitude `MAX_VELOCITY`. -/
def specClampSpeed (sq : ℚ → ℚ) (v : ℚ × ℚ) : ℚ × ℚ :=
  let mag := sq (v.1 * v.1 + v.2 * v.2)
  if mag > MAX_VELOCITY then (v.1 / mag * MAX_VELOCITY, v.2 / mag * MAX_VELOCITY) else v

/-- C5's wording, step 3: multiply the velocity by `COOLING_FACTOR`. -/
def specCool (v : ℚ × ℚ) : ℚ × ℚ := (v.1 * COOLING_FACTOR, v.2 * COOLING_FACTOR)

/-- C5's wording, step 5: clamp one coordinate to `[lo, hi]` and multiply the
corresponding velocity component by −0.5 whenever a clamp occurs. -/
def specClampCoord (lo hi p v : ℚ) : ℚ × ℚ :=
  if p < lo then (lo, v * (-(1/2)))
  else if p > hi then (hi, v * (-(1/2)))
  else (p, v)

/-- The kinematic update exactly as claim C5 states it, as a composition of
the named steps (step 4 is `position += velocity`). -/
def specKinematicStep (sq : ℚ → ℚ) (w h : ℚ) (st : PhysState) (f : ℚ × ℚ) : PhysState :=
  let v := specCool (specClampSpeed sq (specDampedVelocity st f))
  let cx := specClampCoord NODE_RADIUS (w - NODE_RADIUS) (st.x + v.1) v.1
  let cy := specClampCoord NODE_RADIUS (h - NODE_RADIUS) (st.y + v.2) v.2
  { x := cx.1, y := cy.1, vx := cx.2, vy := cy.2 }

/-- One scheduler frame of the physics effect: the effect body returns early
when dimensions are invalid or the node list is empty, and cancels the
animation (no `simulatePhysics` call) when `!autoLayout || draggedNode`;
otherwise it runs one `simulatePhysics` step. -/
def frameTick (sq : ℚ → ℚ) (nodes : List NodeData) (edges : List EdgeData)
    (w h : ℚ) (st : GState) : GState :=
  if w ≤ 0 ∨ h ≤ 0 ∨ nodes = [] then st
  else if !st.autoLayout || st.draggedNode.isSome then st
  else { st with nodePositions :=
    simulatePhysics sq w h nodes edges st.draggedNode st.nodePositions }

/-- State after dragging node `"a"` to pointer (900, 300) — past the right
canvas edge region of an 800×600 canvas. -/
def st9 : GState := handleMouseMove sq0 [nodeA] 900 300 stAfterDown

/-- `st9` with the drag released and physics toggled off. -/
def st9paused : GState := { st9 with draggedNode := none, autoLayout := false }

/-- Smallest `n` with `n * n ≥ m`, via `Nat.sqrt`. -/
def natCeilSqrt (m : ℕ) : ℕ :=
  if Nat.sqrt m * Nat.sqrt m = m then Nat.sqrt m else Nat.sqrt m + 1

/-- Exact-real semantics of `Math.ceil(Math.sqrt(q))` for the nonnegative
arguments the initializer produces: an integer `n` satisfies `n ≥ √q` iff
`n² ≥ q` iff `n² ≥ ⌈q⌉`, so the ceiling of the real square root of `q` is
`natCeilSqrt ⌈q⌉₊`. -/
def ceilSqrtQ (q : ℚ) : ℕ := natCeilSqrt ⌈q⌉₊

/-- `gridCols = Math.ceil(Math.sqrt(nodeCount * aspect))` where the aspect is
that of the padded available area (`padding = NODE_RADIUS * 2` on each side). -/
def gridColsOf (w h : ℚ) (nodeCount : ℕ) : ℕ :=
  let padding := NODE_RADIUS * 2
  let availableWidth := w - padding * 2
  let availableHeight := h - padding * 2
  ceilSqrtQ ((nodeCount : ℚ) * (availableWidth / availableHeight))

/-- `gridRows = Math.ceil(nodeCount / gridCols)`. -/
def gridRowsOf (w h : ℚ) (nodeCount : ℕ) : ℕ :=
  ⌈(nodeCount : ℚ) / (gridColsOf w h nodeCount : ℚ)⌉₊

/-- The grid-cell placement of the `index`-th node: cell center plus a random
offset of `cellSize * 0.4 * (random − 0.5)` per axis; `jitter` supplies the
two `Math.random()` draws. -/
def gridPlace (w h : ℚ) (nodeCount : ℕ) (jitter : ℕ → ℚ × ℚ) (index : ℕ) : PhysState :=
  let padding := NODE_RADIUS * 2
  let availableWidth := w - padding * 2
  let availableHeight := h - padding * 2
  let gridCols := gridColsOf w h nodeCount
  let gridRows := gridRowsOf w h nodeCount
  let cellWidth := availableWidth / (gridCols : ℚ)
  let cellHeight := availableHeight / (gridRows : ℚ)
  let row := index / gridCols
  let col := index % gridCols
  let randomOffsetX := cellWidth * (2/5) * ((jitter index).1 - 1/2)
  let randomOffsetY := cellHeight * (2/5) * ((jitter index).2 - 1/2)
  { x := padding + cellWidth * ((col : ℚ) + 1/2) + randomOffsetX
    y := padding + cellHeight * ((row : ℚ) + 1/2) + randomOffsetY
    vx := 0
    vy := 0 }

/-- Per-node branch of the initializer's `forEach`: keep the existing entry
(velocity zeroed) iff it exists with BOTH coordinates nonzero, else place the
node on the grid. -/
def initEntry (pos : PosMap) (w h : ℚ) (nodeCount : ℕ) (jitter : ℕ → ℚ × ℚ)
    (index : ℕ) (n : NodeData) : PhysState :=
  match pos n.id with
  | some p =>
    if p.x ≠ 0 ∧ p.y ≠ 0 then { p with vx := 0, vy := 0 }
    else gridPlace w h nodeCount jitter index
  | none => gridPlace w h nodeCount jitter index

/-- The `forEach((node, index) => ...)` that fills `initialPositions`,
starting from the empty record. -/
def writeNodes (entry : ℕ → NodeData → PhysState) :
    ℕ → List NodeData → PosMap → PosMap
  | _, [], acc => acc
  | i, n :: rest, acc =>
    writeNodes entry (i + 1) rest
      (fun id => if id = n.id then some (entry i n) else acc id)

/-- `allNodesHavePositions`: every node has an entry with `x ≠ 0 || y ≠ 0`
(note the OR, in contrast to the per-node AND in `initEntry`). -/
def allNodesHavePositions (nodes : List NodeData) (pos : PosMap) : Bool :=
  nodes.all fun n =>
    match pos n.id with
    | some p => decide (p.x ≠ 0 ∨ p.y ≠ 0)
    | none => false

/-- The node-position initializer effect: bail out on invalid dimensions or an
empty node list, bail out if all nodes already have nonzero positions, else
rebuild the whole record with `writeNodes`. -/
def initPositions (nodes : List NodeData) (w h : ℚ) (pos : PosMap)
    (jitter : ℕ → ℚ × ℚ) : PosMap :=
  if w ≤ 0 ∨ h ≤ 0 ∨ nodes = [] then pos
  else if allNodesHavePositions nodes pos then pos
  else writeNodes (initEntry pos w h nodes.length jitter) 0 nodes (fun _ => none)

/-- The midpoint jitter: `Math.random()` returning 0.5, i.e. zero offset. -/
def midJitter : ℕ → ℚ × ℚ := fun _ => (1/2, 1/2)

/-- The claim's formula with the aspect ratio as the claim reads it: the
canvas aspect ratio itself. -/
def specGridCols (aspect : ℚ) (count : ℕ) : ℕ := ceilSqrtQ ((count : ℚ) * aspect)

/-- A fully positioned single-node record. -/
def posMapW : PosMap := fun id => if id = "a" then some ⟨100, 200, 3, 4⟩ else none

/-- Node `"b"`, stored at (0, 5). -/
def nodeB : NodeData :=
  { id := "b", firstName := "Bo", lastName := "Kim", connectionCount := 0,
    bgColor := "", x := 0, y := 0 }

/-- A record in which node `"a"` sits at (0, 0) and node `"b"` at (0, 5). -/
def posMapC10 : PosMap := fun id =>
  if id = "a" then some ⟨0, 0, 0, 0⟩
  else if id = "b" then some ⟨0, 5, 0, 0⟩ else none

/-- The zoom-toward-cursor algebra: dividing out the recomputed pan offset
recovers the old world coordinate. -/
theorem zoomAnchor (s ns px p : ℚ) (hs : s ≠ 0) (hns : ns ≠ 0) :
    (p - (p - (p - px) * (ns / s))) / ns = (p - px) / s := by
  field_simp
  ring

/-- C2: after a wheel event at screen point `p`, the world point under `p` is
unchanged: `screenToWorld p` with the new scale and pan offset equals
`screenToWorld p` with the old ones, for any prior scale in [0.1, 5] and any
pan offset, including when the new scale is clamped at 0.1 or 5. -/
theorem wheel_preserves_world_point (st : GState) (x y dy : ℚ)
    (h1 : 1/10 ≤ st.scale) (h2 : st.scale ≤ 5) :
    screenToWorld (x, y) (handleWheel x y dy st).panOffset (handleWheel x y dy st).scale
      = screenToWorld (x, y) st.panOffset st.scale := by
  have hs : st.scale ≠ 0 := by linarith
  have hsc : (handleWheel x y dy st).scale
      = max (1/10) (min 5 (st.scale * (if dy < 0 then 11/10 else 9/10))) := rfl
  have h10 : (1:ℚ)/10 ≤ (handleWheel x y dy st).scale := by
    rw [hsc]
    exact le_max_left _ _
  have hns : (handleWheel x y dy st).scale ≠ 0 := by
    intro h
    rw [h] at h10
    norm_num at h10
  have hpo1 : (handleWheel x y dy st).panOffset.1
      = x - (x - st.panOffset.1) * ((handleWheel x y dy st).scale / st.scale) := rfl
  have hpo2 : (handleWheel x y dy st).panOffset.2
      = y - (y - st.panOffset.2) * ((handleWheel x y dy st).scale / st.scale) := rfl
  simp only [screenToWorld, Prod.mk.injEq]
  rw [hpo1, hpo2]
  exact ⟨zoomAnchor _ _ _ _ hs hns, zoomAnchor _ _ _ _ hs hns⟩

/-- Witness for C2 at a concrete input. -/
theorem wheel_preserves_world_point_witness :
    (1:ℚ)/10 ≤ st0.scale ∧ st0.scale ≤ 5 ∧
      screenToWorld (3, 4) (handleWheel 3 4 (-1) st0).panOffset
          (handleWheel 3 4 (-1) st0).scale
        = screenToWorld (3, 4) st0.panOffset st0.scale :=
  ⟨by norm_num [st0], by norm_num [st0],
    wheel_preserves_world_point st0 3 4 (-1) (by norm_num [st0]) (by norm_num [st0])⟩

/-- While dragging, a pointermove writes `(pointerWorld − grabOffset, v = 0)`
into the dragged node's entry. -/
theorem mouseMove_drag_pos (sq : ℚ → ℚ) (nodes : List NodeData) (x y : ℚ)
    (st : GState) (d : NodeId) (hd : st.draggedNode = some d) :
    (handleMouseMove sq nodes x y st).nodePositions d =
      some { x := (x - st.panOffset.1) / st.scale - st.offsetX,
             y := (y - st.panOffset.2) / st.scale - st.offsetY, vx := 0, vy := 0 } := by
  obtain ⟨dn, hov, ox, oy, ip, po, ps, sc, al, np⟩ := st
  simp only at hd
  subst hd
  unfold handleMouseMove
  simp

/-- While dragging, a pointermove leaves every other node's entry unchanged. -/
theorem mouseMove_drag_other (sq : ℚ → ℚ) (nodes : List NodeData) (x y : ℚ)
    (st : GState) (d : NodeId) (hd : st.draggedNode = some d) (id : NodeId)
    (hid : id ≠ d) :
    (handleMouseMove sq nodes x y st).nodePositions id = st.nodePositions id := by
  obtain ⟨dn, hov, ox, oy, ip, po, ps, sc, al, np⟩ := st
  simp only at hd
  subst hd
  unfold handleMouseMove
  simp [hid]

/-- C6: while a node is being dragged, every pointermove sets that node's
position exactly to the pointer's world coordinates minus the grab offset and
its velocity to zero, and changes no other node's position or velocity. -/
theorem drag_move_sets_position_exactly (sq : ℚ → ℚ) (nodes : List NodeData)
    (x y : ℚ) (st : GState) (d : NodeId) (hd : st.draggedNode = some d) :
    ((handleMouseMove sq nodes x y st).nodePositions d =
        some { x := (x - st.panOffset.1) / st.scale - st.offsetX,
               y := (y - st.panOffset.2) / st.scale - st.offsetY, vx := 0, vy := 0 }) ∧
      ∀ id, id ≠ d →
        (handleMouseMove sq nodes x y st).nodePositions id = st.nodePositions id :=
  ⟨mouseMove_drag_pos sq nodes x y st d hd,
    fun id hid => mouseMove_drag_other sq nodes x y st d hd id hid⟩

/-- The pointerdown of the scenario hits node `"a"` dead center. -/
theorem scenario_hit :
    findNodeAtPosition sq0 [nodeA] st0.nodePositions st0.panOffset st0.scale 400 300
      = some "a" := by
  norm_num [findNodeAtPosition, st0, nodeA, sq0, NODE_RADIUS]

/-- Field-level characterization of the state after the pointerdown. -/
theorem stAfterDown_fields :
    stAfterDown.draggedNode = some "a" ∧ stAfterDown.panOffset = (0, 0) ∧
      stAfterDown.scale = 1 ∧ stAfterDown.offsetX = 0 ∧ stAfterDown.offsetY = 0 := by
  have hpos0 : st0.nodePositions "a" = some ⟨400, 300, 0, 0⟩ := by simp [st0]
  refine ⟨?_, ?_, ?_, ?_, ?_⟩ <;>
  · unfold stAfterDown handleMouseDown
    rw [scenario_hit]
    simp only [hpos0]
    try norm_num [st0]

/-- C1: a full drag interaction (pointerdown hitting node `"a"`, pointermove to
(500, 400), pointerup).  The interaction state does return to Idle, but
`handleMouseUp` emits no host callback at all: `onNodeDrag` is never invoked,
contradicting both the spec and the component's own props contract (the page
hosting the component wires a persistence callback to this prop). -/
theorem drag_release_emits_no_callback :
    stAfterDown.draggedNode = some "a" ∧
      stAfterMove.nodePositions "a" = some ⟨500, 400, 0, 0⟩ ∧
      (handleMouseUp stAfterMove).2 = [] ∧
      (handleMouseUp stAfterMove).1.draggedNode = none ∧
      (handleMouseUp stAfterMove).1.isPanning = false := by
  obtain ⟨h1, h2, h3, h4, h5⟩ := stAfterDown_fields
  refine ⟨h1, ?_, rfl, rfl, rfl⟩
  have hm := mouseMove_drag_pos sq0 [nodeA] 500 400 stAfterDown "a" h1
  unfold stAfterMove
  rw [hm, h2, h3, h4, h5]
  norm_num

/-- Witness for C6 at a concrete input. -/
theorem drag_move_sets_position_exactly_witness :
    stDrag.draggedNode = some "a" ∧
      (handleMouseMove sq0 [nodeA] 10 20 stDrag).nodePositions "a" =
        some ⟨10, 20, 0, 0⟩ ∧
      (handleMouseMove sq0 [nodeA] 10 20 stDrag).nodePositions "b" =
        stDrag.nodePositions "b" := by
  refine ⟨rfl, ?_, ?_⟩
  · have h := (drag_move_sets_position_exactly sq0 [nodeA] 10 20 stDrag "a" rfl).1
    rw [h]
    norm_num [stDrag, st0]
  · exact (drag_move_sets_position_exactly sq0 [nodeA] 10 20 stDrag "a" rfl).2 "b"
      (by simp)

/-- One wheel event always leaves the scale inside [0.1, 5]. -/
theorem handleWheel_scale_bounds (x y dy : ℚ) (st : GState) :
    1/10 ≤ (handleWheel x y dy st).scale ∧ (handleWheel x y dy st).scale ≤ 5 := by
  have hsc : (handleWheel x y dy st).scale
      = max (1/10) (min 5 (st.scale * (if dy < 0 then 11/10 else 9/10))) := rfl
  rw [hsc]
  exact ⟨le_max_left _ _, max_le (by norm_num) (min_le_left _ _)⟩

/-- The scale bound is preserved by any sequence of wheel events. -/
theorem applyWheelList_scale_bounds (evts : List (ℚ × ℚ × ℚ)) :
    ∀ st : GState, 1/10 ≤ st.scale → st.scale ≤ 5 →
      1/10 ≤ (applyWheelList evts st).scale ∧ (applyWheelList evts st).scale ≤ 5 := by
  induction evts with
  | nil => exact fun st h1 h2 => ⟨h1, h2⟩
  | cons e rest ih =>
    intro st h1 h2
    have hb := handleWheel_scale_bounds e.1 e.2.1 e.2.2 st
    exact ih _ hb.1 hb.2

/-- `handleMouseDown` never changes the scale. -/
theorem handleMouseDown_scale (sq : ℚ → ℚ) (nodes : List NodeData) (x y : ℚ)
    (st : GState) : (handleMouseDown sq nodes x y st).scale = st.scale := by
  unfold handleMouseDown
  rcases hf : findNodeAtPosition sq nodes st.nodePositions st.panOffset st.scale x y with _ | nid
  · rfl
  · rcases hp : st.nodePositions nid with _ | p <;> simp only [hp]

/-- `handleMouseMove` never changes the scale. -/
theorem handleMouseMove_scale (sq : ℚ → ℚ) (nodes : List NodeData) (x y : ℚ)
    (st : GState) : (handleMouseMove sq nodes x y st).scale = st.scale := by
  obtain ⟨dn, hov, ox, oy, ip, po, ps, sc, al, np⟩ := st
  cases dn with
  | some d => rfl
  | none => cases ip <;> rfl

/-- The physics frame tick never changes the scale. -/
theorem frameTick_scale (sq : ℚ → ℚ) (nodes : List NodeData) (edges : List EdgeData)
    (w h : ℚ) (st : GState) : (frameTick sq nodes edges w h st).scale = st.scale := by
  unfold frameTick
  split_ifs <;> rfl

/-- C8: starting from `scale = 1`, any sequence of wheel events leaves the
scale inside [0.1, 5], and no operation other than `handleWheel` — mouse
handlers, physics ticks — changes the scale. -/
theorem scale_always_clamped (evts : List (ℚ × ℚ × ℚ)) (st : GState)
    (h : st.scale = 1) :
    (1/10 ≤ (applyWheelList evts st).scale ∧ (applyWheelList evts st).scale ≤ 5) ∧
      (∀ sq nodes x y, (handleMouseDown sq nodes x y st).scale = st.scale) ∧
      (∀ sq nodes x y, (handleMouseMove sq nodes x y st).scale = st.scale) ∧
      (handleMouseUp st).1.scale = st.scale ∧
      (∀ sq nodes edges w hgt, (frameTick sq nodes edges w hgt st).scale = st.scale) :=
  ⟨applyWheelList_scale_bounds evts st (by rw [h]; norm_num) (by rw [h]; norm_num),
    fun sq nodes x y => handleMouseDown_scale sq nodes x y st,
    fun sq nodes x y => handleMouseMove_scale sq nodes x y st, rfl,
    fun sq nodes edges w hgt => frameTick_scale sq nodes edges w hgt st⟩

/-- Witness for C8 at a concrete input. -/
theorem scale_always_clamped_witness :
    st0.scale = 1 ∧
      1/10 ≤ (applyWheelList [(0, 0, -1)] st0).scale ∧
      (applyWheelList [(0, 0, -1)] st0).scale ≤ 5 :=
  ⟨rfl, (scale_always_clamped [(0, 0, -1)] st0 rfl).1.1,
    (scale_always_clamped [(0, 0, -1)] st0 rfl).1.2⟩

/-- The source's two sequential boundary `if`s agree with the claim's
if/else-if clamp as long as the canvas is at least two radii wide. -/
theorem seqClamp_eq (lo hi p v : ℚ) (hlo : ¬ lo > hi) :
    (if (if p < lo then (lo, v * (-(1/2))) else (p, v)).1 > hi
      then (hi, (if p < lo then (lo, v * (-(1/2))) else (p, v)).2 * (-(1/2)))
      else (if p < lo then (lo, v * (-(1/2))) else (p, v)))
      = specClampCoord lo hi p v := by
  unfold specClampCoord
  by_cases h1 : p < lo
  · simp [h1, hlo]
  · simp [h1]

/-- `integrateNode` coincides with the claim's step pipeline whenever the
canvas admits the clamp interval (`2 * NODE_RADIUS ≤ w, h`). -/
theorem integrateNode_eq_spec (sq : ℚ → ℚ) (w h : ℚ) (st : PhysState) (f : ℚ × ℚ)
    (hw : 2 * NODE_RADIUS ≤ w) (hh : 2 * NODE_RADIUS ≤ h) :
    integrateNode sq w h st f = specKinematicStep sq w h st f := by
  have hw' : ¬ NODE_RADIUS > w - NODE_RADIUS := by
    rw [NODE_RADIUS] at hw ⊢
    linarith
  have hh' : ¬ NODE_RADIUS > h - NODE_RADIUS := by
    rw [NODE_RADIUS] at hh ⊢
    linarith
  simp only [integrateNode, specKinematicStep, specCool, specClampSpeed,
    specDampedVelocity]
  rw [seqClamp_eq _ _ _ _ hw', seqClamp_eq _ _ _ _ hh']

/-- C5: for a node that is not being dragged (and has an entry), the physics
tick's treatment of it is exactly the claim's pipeline — damping plus
accumulated force, magnitude clamp, cooling, position update, boundary clamp
with −0.5 bounce — and it touches no other node's entry. -/
theorem physics_tick_integration (sq : ℚ → ℚ) (w h : ℚ) (nodes : List NodeData)
    (edges : List EdgeData) (dragged : Option NodeId) (acc : PosMap)
    (n : NodeData) (st : PhysState) (hw : 2 * NODE_RADIUS ≤ w)
    (hh : 2 * NODE_RADIUS ≤ h) (hd : dragged ≠ some n.id)
    (hst : acc n.id = some st) :
    (updateNode sq w h nodes edges dragged acc n n.id =
        some (specKinematicStep sq w h st (computeForce sq w h nodes edges acc n st))) ∧
      ∀ id, id ≠ n.id → updateNode sq w h nodes edges dragged acc n id = acc id := by
  have hbody : updateNode sq w h nodes edges dragged acc n = fun id =>
      if id = n.id then
        some (integrateNode sq w h st (computeForce sq w h nodes edges acc n st))
      else acc id := by
    unfold updateNode
    rw [hst]
    dsimp only
    rw [if_neg hd]
  rw [hbody]
  constructor
  · simp [integrateNode_eq_spec sq w h st (computeForce sq w h nodes edges acc n st) hw hh]
  · intro id hid
    simp [hid]

/-- Witness for C5 at a concrete input: a lone resting node at the canvas
center stays exactly where it is. -/
theorem physics_tick_integration_witness :
    updateNode sq0 800 600 [nodeA] [] none st0.nodePositions nodeA "a" =
      some ⟨400, 300, 0, 0⟩ := by
  have h := (physics_tick_integration sq0 800 600 [nodeA] [] none st0.nodePositions
    nodeA ⟨400, 300, 0, 0⟩ (by norm_num [NODE_RADIUS]) (by norm_num [NODE_RADIUS])
    (by simp) (by simp [st0, nodeA])).1
  simp only [show nodeA.id = "a" from rfl] at h
  rw [h]
  have hf : computeForce sq0 800 600 [nodeA] [] st0.nodePositions nodeA ⟨400, 300, 0, 0⟩
      = (0, 0) := by
    norm_num [computeForce, nodeA, CENTER_GRAVITY]
  rw [hf]
  norm_num [specKinematicStep, specCool, specClampSpeed, specDampedVelocity,
    specClampCoord, sq0, DAMPING, COOLING_FACTOR, MAX_VELOCITY, NODE_RADIUS]

/-- `handleMouseMove` never changes which node is being dragged. -/
theorem handleMouseMove_dragged (sq : ℚ → ℚ) (nodes : List NodeData) (x y : ℚ)
    (st : GState) : (handleMouseMove sq nodes x y st).draggedNode = st.draggedNode := by
  obtain ⟨dn, hov, ox, oy, ip, po, ps, sc, al, np⟩ := st
  cases dn with
  | some d => rfl
  | none => cases ip <;> rfl

/-- `handleMouseMove` never changes the physics toggle. -/
theorem handleMouseMove_autoLayout (sq : ℚ → ℚ) (nodes : List NodeData) (x y : ℚ)
    (st : GState) : (handleMouseMove sq nodes x y st).autoLayout = st.autoLayout := by
  obtain ⟨dn, hov, ox, oy, ip, po, ps, sc, al, np⟩ := st
  cases dn with
  | some d => rfl
  | none => cases ip <;> rfl

/-- C9: a pointermove while dragging writes the transformed pointer position
with no bounds check — node `"a"` ends at x = 900 > 800 − NODE_RADIUS — and
the position stays there: the frame tick skips `simulatePhysics` (the only
place clamping happens) both while the drag continues and while physics is
disabled. -/
theorem drag_position_escapes_bounds :
    st9.nodePositions "a" = some ⟨900, 300, 0, 0⟩ ∧
      800 - NODE_RADIUS < 900 ∧
      (frameTick sq0 [nodeA] [] 800 600 st9).nodePositions "a" =
        st9.nodePositions "a" ∧
      (frameTick sq0 [nodeA] [] 800 600 st9paused).nodePositions "a" =
        st9paused.nodePositions "a" ∧
      st9paused.nodePositions "a" = st9.nodePositions "a" := by
  obtain ⟨h1, h2, h3, h4, h5⟩ := stAfterDown_fields
  have hdrag : st9.draggedNode = some "a" := by
    rw [st9, handleMouseMove_dragged, h1]
  refine ⟨?_, by norm_num [NODE_RADIUS], ?_, ?_, rfl⟩
  · have hm := mouseMove_drag_pos sq0 [nodeA] 900 300 stAfterDown "a" h1
    rw [st9, hm, h2, h3, h4, h5]
    norm_num
  · unfold frameTick
    rw [if_neg (by norm_num), if_pos (by rw [hdrag]; simp)]
  · unfold frameTick
    rw [if_neg (by norm_num), if_pos (by simp [st9paused])]

/-- `Nat.sqrt` at a concrete input, from two bounds. -/
theorem sqrt_eq_of_bounds (m n : ℕ) (h1 : n * n ≤ m) (h2 : m < (n + 1) * (n + 1)) :
    Nat.sqrt m = n := by
  have hl : n ≤ Nat.sqrt m := Nat.le_sqrt.2 h1
  have hu : Nat.sqrt m < n + 1 := Nat.sqrt_lt.2 h2
  omega

/-- `natCeilSqrt` at a concrete input, from two bounds. -/
theorem natCeilSqrt_eval (c r : ℕ) (h1 : r * r < c) (h2 : c ≤ (r + 1) * (r + 1)) :
    natCeilSqrt c = r + 1 := by
  rcases eq_or_lt_of_le h2 with he | hlt
  · have hs : Nat.sqrt c = r + 1 := sqrt_eq_of_bounds c (r + 1) (le_of_eq he.symm) (by nlinarith)
    unfold natCeilSqrt
    rw [hs, if_pos he.symm]
  · have hs : Nat.sqrt c = r := sqrt_eq_of_bounds c r (by omega) hlt
    unfold natCeilSqrt
    rw [hs, if_neg (by omega)]

/-- `ceilSqrtQ` at a concrete input. -/
theorem ceilSqrtQ_eval (q : ℚ) (c r : ℕ) (hc : ⌈q⌉₊ = c) (h1 : r * r < c)
    (h2 : c ≤ (r + 1) * (r + 1)) : ceilSqrtQ q = r + 1 := by
  unfold ceilSqrtQ
  rw [hc]
  exact natCeilSqrt_eval c r h1 h2

/-- `gridColsOf` at a concrete input. -/
theorem gridColsOf_eval (w h : ℚ) (count c r : ℕ)
    (hc : ⌈(count : ℚ) * ((w - NODE_RADIUS * 2 * 2) / (h - NODE_RADIUS * 2 * 2))⌉₊ = c)
    (h1 : r * r < c) (h2 : c ≤ (r + 1) * (r + 1)) : gridColsOf w h count = r + 1 :=
  ceilSqrtQ_eval _ c r hc h1 h2

/-- With one node on an 800×600 canvas the grid is 2 columns wide. -/
theorem gridCols_one : gridColsOf 800 600 1 = 2 :=
  gridColsOf_eval 800 600 1 2 1
    (by rw [Nat.ceil_eq_iff (by norm_num)]; norm_num [NODE_RADIUS])
    (by norm_num) (by norm_num)

/-- With one node the grid has a single row. -/
theorem gridRows_one : gridRowsOf 800 600 1 = 1 := by
  unfold gridRowsOf
  rw [gridCols_one, Nat.ceil_eq_iff (by norm_num)]
  norm_num

/-- With two nodes on an 800×600 canvas the grid is 2 columns wide. -/
theorem gridCols_two : gridColsOf 800 600 2 = 2 :=
  gridColsOf_eval 800 600 2 3 1
    (by rw [Nat.ceil_eq_iff (by norm_num)]; norm_num [NODE_RADIUS])
    (by norm_num) (by norm_num)

/-- With two nodes the grid has a single row. -/
theorem gridRows_two : gridRowsOf 800 600 2 = 1 := by
  unfold gridRowsOf
  rw [gridCols_two, Nat.ceil_eq_iff (by norm_num)]
  norm_num

/-- With twelve nodes on an 800×600 canvas the grid is 5 columns wide
(the aspect ratio used is 620/420, and ⌈12 · 620/420⌉ = 18 with 4² < 18 ≤ 5²). -/
theorem gridCols_twelve : gridColsOf 800 600 12 = 5 :=
  gridColsOf_eval 800 600 12 18 4
    (by rw [Nat.ceil_eq_iff (by norm_num)]; norm_num [NODE_RADIUS])
    (by norm_num) (by norm_num)

/-- With twelve nodes the grid has three rows. -/
theorem gridRows_twelve : gridRowsOf 800 600 12 = 3 := by
  unfold gridRowsOf
  rw [gridCols_twelve, Nat.ceil_eq_iff (by norm_num)]
  norm_num

/-- First cell of the 2×1 grid for a single node: (245, 300), not (400, 300). -/
theorem gridPlace_single : gridPlace 800 600 1 midJitter 0 = ⟨245, 300, 0, 0⟩ := by
  unfold gridPlace
  rw [gridCols_one, gridRows_one]
  norm_num [NODE_RADIUS, midJitter]

/-- Second cell of the 2×1 grid for two nodes: (555, 300). -/
theorem gridPlace_second : gridPlace 800 600 2 midJitter 1 = ⟨555, 300, 0, 0⟩ := by
  unfold gridPlace
  rw [gridCols_two, gridRows_two]
  norm_num [NODE_RADIUS, midJitter]

/-- Evaluation of the initializer on the single-node 800×600 scene with no
prior positions and midpoint jitter: the node lands at (245, 300), the center
of the first cell of its 2×1 grid. -/
theorem initPositions_single_eval :
    initPositions [nodeA] 800 600 (fun _ => none) midJitter "a" =
      some ⟨245, 300, 0, 0⟩ := by
  unfold initPositions
  rw [if_neg (by norm_num), if_neg (by simp [allNodesHavePositions])]
  simp [writeNodes, initEntry, nodeA, gridPlace_single]

/-- C3 counterexample: the single-node initializer does not place the node at
the canvas center (400, 300). -/
theorem init_single_not_center :
    initPositions [nodeA] 800 600 (fun _ => none) midJitter "a" ≠
      some ⟨400, 300, 0, 0⟩ := by
  rw [initPositions_single_eval]
  simp only [ne_eq, Option.some.injEq, PhysState.mk.injEq]
  norm_num

/-- C3 amended: with 1 node, 0 edges, an 800×600 canvas and zero jitter, the
initializer assigns (245, 300) — the center of the first cell of the computed
2×1 grid over the padded 620×420 area — whose y-coordinate happens to be the
canvas-center y but whose x-coordinate is 245, not 400. -/
theorem init_single_assigns_first_cell :
    initPositions [nodeA] 800 600 (fun _ => none) midJitter "a" =
      some ⟨245, 300, 0, 0⟩ :=
  initPositions_single_eval

/-- C4 counterexample: with the aspect ratio 800/600 the claimed formula gives
`ceil(sqrt(12 · 800/600)) = ceil(sqrt(16)) = 4`, yet the initializer computes
5 columns for an 800×600 canvas. -/
theorem gridCols_formula_mismatch :
    specGridCols (800 / 600) 12 = 4 ∧ gridColsOf 800 600 12 = 5 := by
  constructor
  · exact ceilSqrtQ_eval _ 16 3 (by rw [Nat.ceil_eq_iff (by norm_num)]; norm_num)
      (by norm_num) (by norm_num)
  · exact gridCols_twelve

/-- C4 amended: for 12 un-positioned nodes on an 800×600 canvas the
initializer computes gridCols = 5 and gridRows = 3, following
`gridCols = ceil(sqrt(nodeCount * aspectRatio))` with the aspect ratio of the
padded available area, (800−180)/(600−180) = 620/420 — not 800/600, which
would give 4. -/
theorem gridDims_twelve :
    gridColsOf 800 600 12 = 5 ∧ gridRowsOf 800 600 12 = 3 ∧
      gridColsOf 800 600 12 =
        specGridCols ((800 - NODE_RADIUS * 2 * 2) / (600 - NODE_RADIUS * 2 * 2)) 12 :=
  ⟨gridCols_twelve, gridRows_twelve, rfl⟩

/-- C7: if every node already has an entry with a nonzero position, the
initializer returns the position record unchanged (the `allNodesHavePositions`
early return fires), so re-initialization changes no node's position. -/
theorem init_preserves_positioned (nodes : List NodeData) (w h : ℚ) (pos : PosMap)
    (jitter : ℕ → ℚ × ℚ)
    (hall : ∀ n ∈ nodes, ∃ p, pos n.id = some p ∧ (p.x ≠ 0 ∨ p.y ≠ 0)) :
    initPositions nodes w h pos jitter = pos := by
  have hA : allNodesHavePositions nodes pos = true := by
    unfold allNodesHavePositions
    rw [List.all_eq_true]
    intro n hn
    obtain ⟨p, hp, hxy⟩ := hall n hn
    simp [hp, hxy]
  unfold initPositions
  simp [hA]

/-- Witness for C7 at a concrete input. -/
theorem init_preserves_positioned_witness :
    initPositions [nodeA] 800 600 posMapW midJitter = posMapW :=
  init_preserves_positioned [nodeA] 800 600 posMapW midJitter (by
    intro n hn
    rw [List.mem_singleton] at hn
    subst hn
    exact ⟨⟨100, 200, 3, 4⟩, by simp [posMapW, nodeA], Or.inl (by norm_num)⟩)

/-- Keys not written by the `forEach` keep their accumulator value. -/
theorem writeNodes_notMem (entry : ℕ → NodeData → PhysState) (l : List NodeData) :
    ∀ (k : ℕ) (acc : PosMap) (id : NodeId), (∀ n ∈ l, n.id ≠ id) →
      writeNodes entry k l acc id = acc id := by
  induction l with
  | nil => intro k acc id _; rfl
  | cons n rest ih =>
    intro k acc id hmem
    simp only [writeNodes]
    rw [ih (k + 1) _ id (fun m hm => hmem m (List.mem_cons_of_mem _ hm))]
    exact if_neg (fun hc => hmem n (List.mem_cons_self _ _) hc.symm)

/-- With pairwise-distinct ids, the `forEach` assigns the `i`-th node the
entry computed at index `k + i`. -/
theorem writeNodes_get (entry : ℕ → NodeData → PhysState) (l : List NodeData) :
    ∀ (k i : ℕ) (acc : PosMap) (hi : i < l.length),
      (l.map NodeData.id).Nodup →
      writeNodes entry k l acc ((l.get ⟨i, hi⟩).id) =
        some (entry (k + i) (l.get ⟨i, hi⟩)) := by
  induction l with
  | nil => intro k i acc hi _; exact absurd hi (by simp)
  | cons n rest ih =>
    intro k i acc hi hnd
    have hnd' : (∀ x ∈ rest, x.id ≠ n.id) ∧ (rest.map NodeData.id).Nodup := by
      simpa using hnd
    cases i with
    | zero =>
      simp only [writeNodes, List.get]
      rw [writeNodes_notMem entry rest (k + 1) _ n.id (fun m hm => hnd'.1 m hm)]
      simp
    | succ j =>
      simp only [writeNodes, List.get]
      rw [show k + (j + 1) = (k + 1) + j from by omega]
      exact ih (k + 1) j _ (by simpa using hi) hnd'.2

/-- C10 amended: when the initializer actually runs (valid dimensions, some
node lacking a nonzero position) and ids are pairwise distinct, the `i`-th
node keeps its coordinates (velocity zeroed) iff its entry exists with BOTH
coordinates nonzero; an entry with `x = 0` or `y = 0` — not merely `(0,0)` —
or no entry at all is reassigned to grid cell `i` with jitter. -/
theorem init_keeps_iff_both_nonzero (nodes : List NodeData) (w h : ℚ)
    (pos : PosMap) (jitter : ℕ → ℚ × ℚ) (i : ℕ) (hi : i < nodes.length)
    (n : NodeData) (hn : nodes.get ⟨i, hi⟩ = n)
    (hnd : (nodes.map NodeData.id).Nodup) (hw : 0 < w) (hh : 0 < h)
    (hrun : allNodesHavePositions nodes pos = false) :
    (pos n.id = none →
        initPositions nodes w h pos jitter n.id =
          some (gridPlace w h nodes.length jitter i)) ∧
      (∀ p, pos n.id = some p → (p.x = 0 ∨ p.y = 0) →
        initPositions nodes w h pos jitter n.id =
          some (gridPlace w h nodes.length jitter i)) ∧
      (∀ p, pos n.id = some p → p.x ≠ 0 → p.y ≠ 0 →
        initPositions nodes w h pos jitter n.id = some ⟨p.x, p.y, 0, 0⟩) := by
  subst hn
  have hne : nodes ≠ [] := by
    intro h0
    rw [h0] at hi
    simp at hi
  have hinit : initPositions nodes w h pos jitter =
      writeNodes (initEntry pos w h nodes.length jitter) 0 nodes (fun _ => none) := by
    unfold initPositions
    rw [if_neg (by push_neg; exact ⟨by linarith, by linarith, hne⟩),
      if_neg (by simp [hrun])]
  have hget := writeNodes_get (initEntry pos w h nodes.length jitter) nodes 0 i
    (fun _ => none) hi hnd
  rw [Nat.zero_add] at hget
  refine ⟨fun hp => ?_, fun p hp hxy => ?_, fun p hp hx hy => ?_⟩
  · rw [hinit, hget]
    unfold initEntry
    rw [hp]
  · rw [hinit, hget]
    unfold initEntry
    rw [hp]
    have : ¬ (p.x ≠ 0 ∧ p.y ≠ 0) := by tauto
    simp only [this, if_false]
  · rw [hinit, hget]
    unfold initEntry
    rw [hp]
    simp only [ne_eq, hx, hy, not_false_eq_true, and_self, if_true]

/-- C10 counterexample: node `"b"` stores (0, 5) — a position other than
(0, 0) — yet the initializer moves it (to the second grid cell): the per-node
keep condition demands BOTH coordinates nonzero. -/
theorem init_moves_zero_x_node :
    initPositions [nodeA, nodeB] 800 600 posMapC10 midJitter "b" ≠
      some ⟨0, 5, 0, 0⟩ := by
  have heval : initPositions [nodeA, nodeB] 800 600 posMapC10 midJitter "b" =
      some (gridPlace 800 600 2 midJitter 1) := by
    unfold initPositions
    rw [if_neg (by push_neg; exact ⟨by norm_num, by norm_num, by simp⟩),
      if_neg (by simp [allNodesHavePositions, posMapC10, nodeA, nodeB])]
    simp [writeNodes, initEntry, posMapC10, nodeA, nodeB]
  rw [heval, gridPlace_second]
  simp only [ne_eq, Option.some.injEq, PhysState.mk.injEq]
  norm_num

/-- Witness for C10 at a concrete input: node `"b"` at (0, 5) is reassigned to
the second grid cell, (555, 300). -/
theorem init_keeps_iff_both_nonzero_witness :
    initPositions [nodeA, nodeB] 800 600 posMapC10 midJitter "b" =
      some ⟨555, 300, 0, 0⟩ := by
  have h := (init_keeps_iff_both_nonzero [nodeA, nodeB] 800 600 posMapC10 midJitter
    1 (by norm_num) nodeB rfl (by simp [nodeA, nodeB]) (by norm_num) (by norm_num)
    (by simp [allNodesHavePositions, posMapC10, nodeA, nodeB])).2.1
    ⟨0, 5, 0, 0⟩ (by simp [posMapC10, nodeB]) (Or.inl rfl)
  rw [show gridPlace 800 600 ([nodeA, nodeB].length) midJitter 1 =
    gridPlace 800 600 2 midJitter 1 from by norm_num] at h
  exact h.trans (by rw [gridPlace_second])

end CanvasGraph
